import Mathlib

/-!
Verification development for the ops-agent intent-routing / policy / remote-tool
pipeline.  The Python sources `agent/policy.py`, `agent/router.py` and
`agent/tools_ssh.py` are shallowly embedded below: Python `dict` actions become
association lists over a small value type, in-place dict mutation is made
explicit by returning both the function result and the post-call state of the
input object, and a Python `raise` becomes `Except.error`.  External
collaborators (the Ollama chat call, `json.loads`, the SFTP channel) are
modelled as oracle parameters, since their code lives outside this repository.
All string handling is over `List Char`; Python's `str.lower` and the `\w`
regex class are modelled on their ASCII behaviour, which coincides with Python
on every input considered here.
-/

/-- Python `needle == hay[:len(needle)]`: does `needle` match at the head of
`hay`? -/
def headMatch : List Char → List Char → Bool
  | [], _ => true
  | _ :: _, [] => false
  | a :: as1, b :: bs => a == b && headMatch as1 bs

/-- Python `needle in hay` for strings: `needle` occurs as a contiguous
substring of `hay` (the empty needle always matches). -/
def hasSub : List Char → List Char → Bool
  | needle, [] => headMatch needle []
  | needle, c :: rest => headMatch needle (c :: rest) || hasSub needle rest

/-- Python `needle in hay` on `String`s. -/
def pyIn (needle hay : String) : Bool :=
  hasSub needle.data hay.data

/-- Python `s.lower()` (ASCII behaviour of `Char.toLower`). -/
def pyLower (s : String) : String :=
  String.mk (s.data.map Char.toLower)

/-- Python `s.startswith(p)`. -/
def strStartsWith (s p : String) : Bool :=
  headMatch p.data s.data

/-- Python whitespace as recognised by `str.strip()` (ASCII). -/
def isPySpace (c : Char) : Bool :=
  c == ' ' || c == '\t' || c == '\n' || c == '\r' || c == '\x0b' || c == '\x0c'

/-- Python `s.strip()`. -/
def pyStrip (s : String) : String :=
  String.mk (((s.data.dropWhile isPySpace).reverse.dropWhile isPySpace).reverse)

/-- A word character for the regex class `\w` (ASCII behaviour). -/
def isWordChar (c : Char) : Bool :=
  c.isAlphanum || c == '_'

/-- Python `re.findall(r"\b\w+\b", s)`: the maximal runs of word characters
of `s`, in order. -/
def wordTokens (s : List Char) : List (List Char) :=
  let r := s.foldr
    (fun c acc =>
      if isWordChar c then (c :: acc.1, acc.2)
      else ([], if acc.1.isEmpty then acc.2 else acc.1 :: acc.2))
    (([], []) : List Char × List (List Char))
  if r.1.isEmpty then r.2 else r.1 :: r.2

/-- Values stored in an action dict.  The router and classifier only ever put
strings, integers and `None` into actions, so the embedding restricts Python
values to these three shapes (JSON booleans/arrays never reach the policy
layer in this program). -/
inductive Val where
  | vstr : String → Val
  | vint : Int → Val
  | vnone : Val
deriving DecidableEq, Repr

/-- Python `str(v)`, as used by f-string interpolation in `policy.check`. -/
def Val.pyStr : Val → String
  | Val.vstr s => s
  | Val.vint n => toString n
  | Val.vnone => "None"

/-- A Python dict with string keys, as an association list (first occurrence
of a key is its binding; Python dicts cannot actually hold duplicates). -/
abbrev Dict := List (String × Val)

/-- Python `d.get(k)` (`None`-free form: `none` models an absent key). -/
def Dict.get : Dict → String → Option Val
  | [], _ => none
  | (k', v) :: rest, k => if k' == k then some v else Dict.get rest k

/-- Python `d.get(k, dflt)`. -/
def Dict.getD (d : Dict) (k : String) (dflt : Val) : Val :=
  (Dict.get d k).getD dflt

/-- Python `d[k] = v`: replace the binding of `k` in place, appending at the
end when `k` is absent (Python insertion order). -/
def Dict.set : Dict → String → Val → Dict
  | [], k, v => [(k, v)]
  | (k', v') :: rest, k, v =>
    if k' == k then (k, v) :: rest else (k', v') :: Dict.set rest k v

/-! ## agent/policy.py -/

/-- `DESTRUCTIVE_KEYWORDS` from `agent/policy.py`. -/
def DESTRUCTIVE_KEYWORDS : List String :=
  ["delete", "remove", "rm", "drop", "wipe", "format",
   "stop", "restart", "reboot", "shutdown", "kill", "pkill",
   "clean", "purge", "uninstall"]

/-- `FORBIDDEN_PATHS` from `agent/policy.py`. -/
def FORBIDDEN_PATHS : List String :=
  ["~/.ssh", "/etc/shadow", ".env", "id_rsa", "id_ed25519",
   "/root", "/etc/passwd", "authorized_keys", "known_hosts"]

/-- `ALLOWED_TOOLS` from `agent/policy.py` (a Python set; only membership is
ever used). -/
def ALLOWED_TOOLS : List String :=
  ["get_disk_free", "get_ram_usage", "get_cpu_usage", "get_uptime",
   "tail_nginx_error", "tail_nginx_access", "list_workspace_files",
   "create_text_file", "read_text_file", "ask_clarification", "refuse"]

/-- The read `action.get("action", "")` that opens `check`: the kind of an
action dict. -/
def kindOf (d : Dict) : Val :=
  Dict.getD d "action" (Val.vstr "")

/-- Python `tool in ALLOWED_TOOLS` for the value read from the action dict
(a non-string value is never a member of a set of strings). -/
def isAllowedTool : Val → Bool
  | Val.vstr s => ALLOWED_TOOLS.contains s
  | _ => false

/-- Python `tool in ("ask_clarification", "refuse")`. -/
def isMetaTool (tool : Val) : Bool :=
  tool == Val.vstr "ask_clarification" || tool == Val.vstr "refuse"

/-- Python `tool in ("create_text_file", "read_text_file")`. -/
def isFileTool (tool : Val) : Bool :=
  tool == Val.vstr "create_text_file" || tool == Val.vstr "read_text_file"

/-- Python `tool in ("tail_nginx_error", "tail_nginx_access")`. -/
def isTailTool (tool : Val) : Bool :=
  tool == Val.vstr "tail_nginx_error" || tool == Val.vstr "tail_nginx_access"

/-- `any(kw in msg_lower for kw in DESTRUCTIVE_KEYWORDS)` with
`msg_lower = user_message.lower()` (policy.py lines 50-51). -/
def destructiveHit (user_message : String) : Bool :=
  DESTRUCTIVE_KEYWORDS.any (fun kw => pyIn kw (pyLower user_message))

/-- The loop body condition of policy.py lines 59-61:
`forbidden in filename or ".." in filename or filename.startswith("/")`,
folded over `FORBIDDEN_PATHS` exactly as the `for` loop does. -/
def badFilename (filename : String) : Bool :=
  FORBIDDEN_PATHS.any
    (fun forbidden =>
      pyIn forbidden filename || pyIn ".." filename || strStartsWith filename "/")

/-- The refusal dict built for an unknown tool (policy.py lines 43-46). -/
def refuseUnknown (tool : Val) : Dict :=
  [("action", Val.vstr "refuse"),
   ("reason", Val.vstr ("Tool '" ++ Val.pyStr tool ++ "' is not available. I can only use approved tools."))]

/-- The refusal dict built on destructive wording (policy.py lines 52-55). -/
def refuseDestructive : Dict :=
  [("action", Val.vstr "refuse"),
   ("reason", Val.vstr "Destructive actions (delete, stop, restart, remove, etc.) are disabled for safety.")]

/-- The refusal dict built on a forbidden path (policy.py lines 62-65). -/
def refusePath : Dict :=
  [("action", Val.vstr "refuse"),
   ("reason", Val.vstr "Access to that path is not allowed for security reasons.")]

/-- The `lines` bounds check of policy.py lines 67-73, including the in-place
`action["lines"] = ...` assignments.  `action.get("lines", 50)` supplies the
integer default 50 when the key is absent. -/
def linesClamp (action : Dict) (tool : Val) : Dict :=
  if isTailTool tool then
    match Dict.getD action "lines" (Val.vint 50) with
    | Val.vint n =>
      if n < 1 then Dict.set action "lines" (Val.vint 20)
      else if n > 200 then Dict.set action "lines" (Val.vint 200)
      else action
    | _ => Dict.set action "lines" (Val.vint 20)
  else action

/-- `check(action, user_message)` from `agent/policy.py`.  The result pair is
`(returned dict, state of the caller's action object after the call)`: the
refusal branches build a fresh dict and leave the input untouched, while the
fall-through branch returns the input object itself, possibly after the
in-place `lines` assignment.  `Except.error` models the `TypeError` Python
raises when `forbidden in filename` is evaluated with a non-string
`filename` value. -/
def check (action : Dict) (user_message : String) : Except String (Dict × Dict) :=
  let tool := kindOf action
  if !(isAllowedTool tool) then
    Except.ok (refuseUnknown tool, action)
  else if destructiveHit user_message && !(isMetaTool tool) then
    Except.ok (refuseDestructive, action)
  else if isFileTool tool then
    match Dict.getD action "filename" (Val.vstr "") with
    | Val.vstr filename =>
      if badFilename filename then
        Except.ok (refusePath, action)
      else
        Except.ok (linesClamp action tool, linesClamp action tool)
    | _ => Except.error "TypeError: argument of type is not iterable"
  else
    Except.ok (linesClamp action tool, linesClamp action tool)

/-! ## agent/router.py -/

/-- One chat message, Python `{"role": ..., "content": ...}`. -/
structure Msg where
  role : String
  content : String
deriving DecidableEq, Repr

/-- `ROUTER_SYSTEM_PROMPT` from `agent/router.py`. -/
def ROUTER_SYSTEM_PROMPT : String :=
  "You are an action router for a safe Ops Assistant. The user is non-technical.
You MUST output ONLY valid JSON and nothing else. No explanation, no markdown, no text before or after.

Choose exactly one action from:
get_disk_free, get_ram_usage, get_cpu_usage, get_uptime,
tail_nginx_error, tail_nginx_access,
list_workspace_files, create_text_file, read_text_file,
ask_clarification, refuse

Rules:
- Never output Linux commands.
- If user asks \"nginx log\" without specifying error or access: ask_clarification.
- For file creation: if user says \"home\", use workdir. Choose a safe filename from context.
- If content for file is missing: ask_clarification asking what to write inside.
- If user asks for delete/remove/stop/restart/kill/format/cleanup: output refuse.
- Never allow paths outside workdir. Never allow secrets, SSH keys, .env files.
- For nginx log questions, use lines=50 by default unless user specifies.

Output examples (JSON only):
\x7b\"action\":\"get_disk_free\"\x7d
\x7b\"action\":\"get_ram_usage\"\x7d
\x7b\"action\":\"get_cpu_usage\"\x7d
\x7b\"action\":\"get_uptime\"\x7d
\x7b\"action\":\"tail_nginx_error\",\"lines\":50\x7d
\x7b\"action\":\"tail_nginx_access\",\"lines\":80\x7d
\x7b\"action\":\"list_workspace_files\"\x7d
\x7b\"action\":\"create_text_file\",\"filename\":\"note.txt\",\"content\":\"hello world\"\x7d
\x7b\"action\":\"read_text_file\",\"filename\":\"note.txt\"\x7d
\x7b\"action\":\"ask_clarification\",\"question\":\"Do you want nginx error log or access log (visits)?\"\x7d
\x7b\"action\":\"refuse\",\"reason\":\"Destructive actions are disabled for safety.\"\x7d"

/-- The token set `set(re.findall(r"\b\w+\b", text.lower()))` used by the
fallback classifier (membership is the only operation performed on it). -/
def pyTokens (text : String) : List String :=
  (wordTokens (pyLower text).data).map (fun l => String.mk l)

/-- `_fallback_action(text)` from `agent/router.py`. -/
def _fallback_action (text : String) : Option Dict :=
  let normalized := pyLower text
  let tokens := pyTokens text
  if pyIn "nginx" normalized && pyIn "error" normalized then
    some [("action", Val.vstr "tail_nginx_error"), ("lines", Val.vint 50)]
  else if pyIn "nginx" normalized && pyIn "access" normalized then
    some [("action", Val.vstr "tail_nginx_access"), ("lines", Val.vint 50)]
  else if tokens.contains "cpu" || tokens.contains "processor" then
    some [("action", Val.vstr "get_cpu_usage")]
  else if tokens.contains "ram" || tokens.contains "memory" then
    some [("action", Val.vstr "get_ram_usage")]
  else if tokens.contains "disk" || tokens.contains "storage" || tokens.contains "space" then
    some [("action", Val.vstr "get_disk_free")]
  else if tokens.contains "uptime" || tokens.contains "running" then
    some [("action", Val.vstr "get_uptime")]
  else if pyIn "workspace" normalized && (tokens.contains "files" || tokens.contains "list") then
    some [("action", Val.vstr "list_workspace_files")]
  else if tokens.contains "create" && tokens.contains "file" then
    some [("action", Val.vstr "ask_clarification"),
          ("question", Val.vstr "What should the new file be named and contain?")]
  else if tokens.contains "read" && tokens.contains "file" then
    some [("action", Val.vstr "ask_clarification"),
          ("question", Val.vstr "Which workspace file should I read?")]
  else
    none

/-- The characters of the lazy match `.*?\}` starting right after a `{`:
everything up to and including the first `}`, or `none` when no `}` follows. -/
def uptoBrace : List Char → Option (List Char)
  | [] => none
  | c :: rest => if c == '}' then some [c] else (uptoBrace rest).map (fun l => c :: l)

/-- `re.search(r'\{.*?\}', text, re.DOTALL)`: at the leftmost feasible start,
a `{` followed lazily by the first subsequent `}`. -/
def braceSearch : List Char → Option (List Char)
  | [] => none
  | c :: rest =>
    if c == '{' then
      match uptoBrace rest with
      | some body => some ('{' :: body)
      | none => braceSearch rest
    else
      braceSearch rest

/-- The fixed degradation dict of `_extract_json` (router.py lines 85-86). -/
def clarifyFallback : Dict :=
  [("action", Val.vstr "ask_clarification"),
   ("question", Val.vstr "I didn't understand that. Could you rephrase?")]

/-- A value returned by a successful `json.loads`: a JSON object (carried as
the same `Val`-restricted action dict used across the pipeline) or a
non-object JSON value — an array, a string, a number, a boolean or `null` —
all of which `json.loads` happily produces from classifier output and which
`_extract_json` then returns as-is.  No code verified here ever inspects the
interior of a parsed value (the router returns it verbatim), so numbers are
carried as integers and object values are `Val`-restricted without affecting
any statement. -/
inductive PyJson where
  | obj : Dict → PyJson
  | arr : List PyJson → PyJson
  | str : String → PyJson
  | num : Int → PyJson
  | bool : Bool → PyJson
  | null : PyJson

/-- `_extract_json(text)` from `agent/router.py`.  `loads` is an oracle for
`json.loads`: `some v` is any successfully parsed JSON value (object or
not — `json.loads` is not restricted to objects and a scalar such as `42`
parses and is returned directly), `none` models `json.JSONDecodeError`. -/
def _extract_json (loads : String → Option PyJson) (text : String) : PyJson :=
  let t := pyStrip text
  match loads t with
  | some v => v
  | none =>
    match braceSearch t.data with
    | some sub =>
      match loads (String.mk sub) with
      | some v => v
      | none => PyJson.obj clarifyFallback
    | none => PyJson.obj clarifyFallback

/-- `route(user_message, history)` from `agent/router.py`.  `chatO` is an
oracle for `ollama_client.chat` applied to the built message list:
`Except.error` models the `RuntimeError` that `chat` raises on a connection
or API failure, which `route` does not catch.  The history slice and role
filter mirror router.py lines 96-101. -/
def route (chatO : List Msg → Except String String) (loads : String → Option PyJson)
    (user_message : String) (history : List Msg) : Except String PyJson :=
  let messages := (⟨"system", ROUTER_SYSTEM_PROMPT⟩ : Msg) ::
    ((history.drop (history.length - 6)).filter
      (fun h => h.role == "user" || h.role == "assistant") ++
     [(⟨"user", user_message⟩ : Msg)])
  match _fallback_action user_message with
  | some fb => Except.ok (PyJson.obj fb)
  | none =>
    match chatO messages with
    | Except.ok raw => Except.ok (_extract_json loads raw)
    | Except.error e => Except.error e

/-! ## agent/tools_ssh.py -/

/-- Python `filename.replace("..", "")`: delete every non-overlapping
occurrence of `..`, scanning left to right. -/
def removeDotDot : List Char → List Char
  | [] => []
  | [c] => [c]
  | c1 :: c2 :: rest =>
    if c1 == '.' && c2 == '.' then removeDotDot rest
    else c1 :: removeDotDot (c2 :: rest)

/-- Does the character `ch` occur in the list? -/
def hasChar (ch : Char) : List Char → Bool
  | [] => false
  | c :: rest => c == ch || hasChar ch rest

/-- `posixpath.basename(p)`: the part of `p` after its last `/`. -/
def posixBasename : List Char → List Char
  | [] => []
  | c :: rest =>
    if c == '/' || hasChar '/' rest then posixBasename rest else c :: rest

/-- `posixpath.join(a, b)` for a single join step. -/
def posixJoin (a b : List Char) : List Char :=
  if b.head? == some '/' then b
  else if a.isEmpty || a.getLast? == some '/' then a ++ b
  else a ++ '/' :: b

/-- `SSH_WORKDIR` (the documented default of the `SSH_WORKDIR` environment
variable in `agent/tools_ssh.py`). -/
def SSH_WORKDIR : String := "/home/nexapp-server/ops_workspace"

/-- `_safe_workdir_path(filename)` from `agent/tools_ssh.py`;
`Except.error` models the `ValueError("Invalid filename.")` raise. -/
def _safe_workdir_path (filename : String) : Except String String :=
  let safe_name := posixBasename (removeDotDot filename.data)
  if safe_name.isEmpty then Except.error "Invalid filename."
  else Except.ok (String.mk (posixJoin SSH_WORKDIR.data safe_name))

/-- The remote command string built by `tail_nginx_error(lines)`
(tools_ssh.py lines 94-97), including its own clamp
`lines = max(20, min(lines, 200))`. -/
def tail_nginx_error_cmd (lines : Int) : String :=
  let l := max 20 (min lines 200)
  "tail -n " ++ toString l ++ " /var/log/nginx/error.log 2>&1"

/-- The remote command string built by `tail_nginx_access(lines)`
(tools_ssh.py lines 108-111). -/
def tail_nginx_access_cmd (lines : Int) : String :=
  let l := max 20 (min lines 200)
  "tail -n " ++ toString l ++ " /var/log/nginx/access.log 2>&1"

/-- `create_text_file(filename, content)` from `agent/tools_ssh.py`, with the
SFTP write abstracted as the oracle `sftpWrite path content` (it is remote
I/O outside this embedding).  The `except ValueError` handler turns the
sanitization failure into the string `"Error: Invalid filename."`. -/
def create_text_file (sftpWrite : String → String → String)
    (filename content : String) : String :=
  match _safe_workdir_path filename with
  | Except.error e => "Error: " ++ e
  | Except.ok path => sftpWrite path content

/-- `read_text_file(filename)` from `agent/tools_ssh.py`, with the SFTP read
abstracted as the oracle `sftpRead path`. -/
def read_text_file (sftpRead : String → String) (filename : String) : String :=
  match _safe_workdir_path filename with
  | Except.error e => "Error: " ++ e
  | Except.ok path => sftpRead path

/-! ## Basic lemmas about the dict embedding -/

theorem Dict.get_set_self (d : Dict) (k : String) (v : Val) :
    Dict.get (Dict.set d k v) k = some v := by
  induction d with
  | nil => simp [Dict.set, Dict.get]
  | cons p rest ih =>
    obtain ⟨k', v'⟩ := p
    by_cases h : k' = k
    · subst h
      simp [Dict.set, Dict.get]
    · have hb : (k' == k) = false := beq_eq_false_iff_ne.mpr h
      simp [Dict.set, Dict.get, hb, ih]

theorem Dict.get_set_ne (d : Dict) (k k' : String) (v : Val) (hk : k' ≠ k) :
    Dict.get (Dict.set d k v) k' = Dict.get d k' := by
  induction d with
  | nil =>
    have hb : (k == k') = false := beq_eq_false_iff_ne.mpr (Ne.symm hk)
    simp [Dict.set, Dict.get, hb]
  | cons p rest ih =>
    obtain ⟨k0, v0⟩ := p
    by_cases h : k0 = k
    · have hb : (k0 == k) = true := by rw [h]; exact beq_self_eq_true k
      have hb' : (k == k') = false := beq_eq_false_iff_ne.mpr (Ne.symm hk)
      have hb'' : (k0 == k') = false := by rw [h]; exact hb'
      simp [Dict.set, Dict.get, hb, hb', hb'']
    · have hb : (k0 == k) = false := beq_eq_false_iff_ne.mpr h
      by_cases h2 : k0 = k'
      · subst h2
        simp [Dict.set, Dict.get, hb]
      · have hb2 : (k0 == k') = false := beq_eq_false_iff_ne.mpr h2
        simp [Dict.set, Dict.get, hb, hb2, ih]

theorem Dict.getD_set_self (d : Dict) (k : String) (v dflt : Val) :
    Dict.getD (Dict.set d k v) k dflt = v := by
  simp [Dict.getD, Dict.get_set_self]

/-- Setting `"lines"` does not change the kind of an action. -/
theorem kindOf_set_lines (d : Dict) (v : Val) :
    kindOf (Dict.set d "lines" v) = kindOf d := by
  simp [kindOf, Dict.getD, Dict.get_set_ne d "lines" "action" v (by decide)]

/-- Setting `"lines"` does not change the `"filename"` entry of an action. -/
theorem filename_set_lines (d : Dict) (v dflt : Val) :
    Dict.getD (Dict.set d "lines" v) "filename" dflt = Dict.getD d "filename" dflt := by
  simp [Dict.getD, Dict.get_set_ne d "lines" "filename" v (by decide)]

/-! ## Lemmas about the policy helpers -/

theorem kindOf_linesClamp (a : Dict) (t : Val) :
    kindOf (linesClamp a t) = kindOf a := by
  unfold linesClamp
  cases ht : isTailTool t with
  | false => simp
  | true =>
    simp only [if_true]
    cases hv : Dict.getD a "lines" (Val.vint 50) with
    | vint n =>
      by_cases h1 : n < 1
      · simp [h1, kindOf_set_lines]
      · by_cases h2 : n > 200
        · simp [h1, h2, kindOf_set_lines]
        · simp [h1, h2]
    | vstr s => simp [kindOf_set_lines]
    | vnone => simp [kindOf_set_lines]

theorem linesClamp_not_tail (a : Dict) (t : Val) (ht : isTailTool t = false) :
    linesClamp a t = a := by
  simp [linesClamp, ht]

theorem linesClamp_idem (a : Dict) (t : Val) :
    linesClamp (linesClamp a t) t = linesClamp a t := by
  cases ht : isTailTool t with
  | false => simp [linesClamp, ht]
  | true =>
    unfold linesClamp
    simp only [ht, if_true]
    cases hv : Dict.getD a "lines" (Val.vint 50) with
    | vint n =>
      by_cases h1 : n < 1
      · simp [h1, Dict.getD_set_self]
      · by_cases h2 : n > 200
        · simp [h1, h2, Dict.getD_set_self]
        · simp [h1, h2, hv]
    | vstr s => simp [Dict.getD_set_self]
    | vnone => simp [Dict.getD_set_self]

/-- The three possible shapes of the (possibly mutated) action object after
the `lines` bounds check. -/
theorem linesClamp_shape (a : Dict) (t : Val) :
    linesClamp a t = a ∨ linesClamp a t = Dict.set a "lines" (Val.vint 20) ∨
      linesClamp a t = Dict.set a "lines" (Val.vint 200) := by
  unfold linesClamp
  cases ht : isTailTool t with
  | false => simp
  | true =>
    simp only [if_true]
    cases hv : Dict.getD a "lines" (Val.vint 50) with
    | vint n =>
      by_cases h1 : n < 1
      · simp [h1]
      · by_cases h2 : n > 200
        · simp [h1, h2]
        · simp [h1, h2]
    | vstr s => simp
    | vnone => simp

theorem isFileTool_not_tail (t : Val) (h : isFileTool t = true) :
    isTailTool t = false := by
  rcases Bool.or_eq_true_iff.mp h with h1 | h1
  · rw [show t = Val.vstr "create_text_file" from eq_of_beq h1]
    decide
  · rw [show t = Val.vstr "read_text_file" from eq_of_beq h1]
    decide

/-- Inversion principle for `check`: every successful run takes exactly one of
the four return paths of policy.py. -/
theorem check_inv (a : Dict) (u : String) (r : Dict × Dict)
    (h : check a u = Except.ok r) :
    (isAllowedTool (kindOf a) = false ∧ r = (refuseUnknown (kindOf a), a)) ∨
    (isAllowedTool (kindOf a) = true ∧
      (destructiveHit u && !(isMetaTool (kindOf a))) = true ∧
      r = (refuseDestructive, a)) ∨
    (isAllowedTool (kindOf a) = true ∧
      (destructiveHit u && !(isMetaTool (kindOf a))) = false ∧
      isFileTool (kindOf a) = true ∧
      (∃ fn, Dict.getD a "filename" (Val.vstr "") = Val.vstr fn ∧ badFilename fn = true) ∧
      r = (refusePath, a)) ∨
    (isAllowedTool (kindOf a) = true ∧
      (destructiveHit u && !(isMetaTool (kindOf a))) = false ∧
      (isFileTool (kindOf a) = false ∨
        ∃ fn, Dict.getD a "filename" (Val.vstr "") = Val.vstr fn ∧ badFilename fn = false) ∧
      r = (linesClamp a (kindOf a), linesClamp a (kindOf a))) := by
  simp only [check] at h
  cases hA : isAllowedTool (kindOf a) with
  | false =>
    left
    simp only [hA, Bool.not_false, if_true] at h
    exact ⟨rfl, (Except.ok.inj h).symm⟩
  | true =>
    simp only [hA, Bool.not_true, Bool.false_eq_true, if_false] at h
    cases hD : (destructiveHit u && !(isMetaTool (kindOf a))) with
    | true =>
      right; left
      simp only [hD, if_true] at h
      exact ⟨rfl, rfl, (Except.ok.inj h).symm⟩
    | false =>
      simp only [hD, Bool.false_eq_true, if_false] at h
      cases hF : isFileTool (kindOf a) with
      | false =>
        right; right; right
        simp only [hF, Bool.false_eq_true, if_false] at h
        exact ⟨rfl, rfl, Or.inl rfl, (Except.ok.inj h).symm⟩
      | true =>
        simp only [hF, if_true] at h
        cases hfn : Dict.getD a "filename" (Val.vstr "") with
        | vstr fn =>
          rw [hfn] at h
          cases hB : badFilename fn with
          | true =>
            right; right; left
            simp only [hB, if_true] at h
            exact ⟨rfl, rfl, rfl, ⟨fn, rfl, hB⟩, (Except.ok.inj h).symm⟩
          | false =>
            right; right; right
            simp only [hB, Bool.false_eq_true, if_false] at h
            exact ⟨rfl, rfl, Or.inr ⟨fn, rfl, hB⟩, (Except.ok.inj h).symm⟩
        | vint n => rw [hfn] at h; exact absurd h (by simp)
        | vnone => rw [hfn] at h; exact absurd h (by simp)

/-- Every action whose kind is the string `refuse` passes `check` unchanged,
with no mutation. -/
theorem check_refuse_kind (d : Dict) (u : String)
    (hk : kindOf d = Val.vstr "refuse") :
    check d u = Except.ok (d, d) := by
  simp only [check, hk]
  rw [show isAllowedTool (Val.vstr "refuse") = true from by decide,
      show isMetaTool (Val.vstr "refuse") = true from by decide,
      show isFileTool (Val.vstr "refuse") = false from by decide]
  simp [linesClamp, show isTailTool (Val.vstr "refuse") = false from by decide]

/-! ## Lemmas about the executor's filename sanitization -/

theorem removeDotDot_cons (c : Char) (rest : List Char) (hc : (c == '.') = false) :
    ∃ t, removeDotDot (c :: rest) = c :: t := by
  cases rest with
  | nil => exact ⟨[], rfl⟩
  | cons c2 r =>
    refine ⟨removeDotDot (c2 :: r), ?_⟩
    simp [removeDotDot, hc]

/-- After `filename.replace("..", "")` no occurrence of `..` remains: removing
a two-dot pair can only ever splice single dots next to non-dot characters. -/
theorem removeDotDot_no_dotdot : ∀ s, hasSub ['.', '.'] (removeDotDot s) = false := by
  intro s
  induction s using removeDotDot.induct with
  | case1 => rfl
  | case2 c => simp [removeDotDot, hasSub, headMatch]
  | case3 c1 c2 rest hm ih =>
    simpa [removeDotDot, hm] using ih
  | case4 c1 c2 rest hm ih =>
    rw [removeDotDot, if_neg (by simp [hm])]
    rw [hasSub, ih, Bool.or_false]
    by_cases hc1 : (c1 == '.') = true
    · have hc2 : (c2 == '.') = false := by
        cases h2 : (c2 == '.') with
        | false => rfl
        | true => exact absurd (by simp [hc1, h2]) hm
      obtain ⟨t, ht⟩ := removeDotDot_cons c2 rest hc2
      rw [ht, headMatch]
      have : ('.' == c2) = false := by
        rw [beq_eq_false_iff_ne] at hc2 ⊢
        exact fun he => hc2 he.symm
      rw [headMatch, this]
      simp [beq_iff_eq] at hc1
      simp [hc1]
    · rw [headMatch]
      have : ('.' == c1) = false := by
        rw [Bool.not_eq_true, beq_eq_false_iff_ne] at hc1
        rw [beq_eq_false_iff_ne]
        exact fun he => hc1 he.symm
      simp [this]

theorem posixBasename_no_slash : ∀ s, hasChar '/' (posixBasename s) = false := by
  intro s
  induction s with
  | nil => rfl
  | cons c rest ih =>
    rw [posixBasename]
    cases hb : (c == '/' || hasChar '/' rest) with
    | true => simpa [hb] using ih
    | false => simp [hb, hasChar]

theorem posixBasename_preserves_no_sub (needle : List Char) :
    ∀ s, hasSub needle s = false → hasSub needle (posixBasename s) = false := by
  intro s
  induction s with
  | nil => exact fun h => h
  | cons c rest ih =>
    intro h
    have hrest : hasSub needle rest = false := by
      rw [hasSub] at h
      exact (Bool.or_eq_false_iff.mp h).2
    rw [posixBasename]
    cases hb : (c == '/' || hasChar '/' rest) with
    | true => simpa [hb] using ih hrest
    | false => simpa [hb] using h

theorem posixJoin_no_slash_name (a name : List Char) (h0 : name ≠ [])
    (h1 : hasChar '/' name = false) (ha0 : a.isEmpty = false)
    (ha1 : (a.getLast? == some '/') = false) :
    posixJoin a name = a ++ '/' :: name := by
  obtain ⟨n0, t, rfl⟩ : ∃ n0 t, name = n0 :: t := by
    cases name with
    | nil => exact absurd rfl h0
    | cons n0 t => exact ⟨n0, t, rfl⟩
  have hn0 : (n0 == '/') = false := (Bool.or_eq_false_iff.mp (by simpa [hasChar] using h1)).1
  rw [posixJoin]
  rw [if_neg (by simp [List.head?, beq_iff_eq]; rw [beq_eq_false_iff_ne] at hn0; exact hn0)]
  rw [if_neg (by simp [ha0]; rw [beq_eq_false_iff_ne] at ha1; exact ha1)]

/-! ## Lemmas about the router -/

/-- When the deterministic fallback matches, `route` returns its action
without consulting the classifier. -/
theorem route_of_fallback (chatO : List Msg → Except String String)
    (loads : String → Option PyJson) (u : String) (hist : List Msg) (d : Dict)
    (h : _fallback_action u = some d) :
    route chatO loads u hist = Except.ok (PyJson.obj d) := by
  simp only [route, h]

/-- `check` with an allowlisted file-kind tool, a clean user text and a clean
string filename reaching the path screen on `false`: helper for several
claims. -/
theorem check_file_refusePath (a : Dict) (u fn : String)
    (hallow : isAllowedTool (kindOf a) = true)
    (hmeta : isMetaTool (kindOf a) = false)
    (hfile : isFileTool (kindOf a) = true)
    (hfn : Dict.getD a "filename" (Val.vstr "") = Val.vstr fn)
    (hsafe : destructiveHit u = false)
    (hB : badFilename fn = true) :
    check a u = Except.ok (refusePath, a) := by
  simp [check, hallow, hmeta, hfile, hfn, hsafe, hB]

/-! ## Claim theorems -/

/-- C1: for every input pair, a run of the Policy Validator's `check` that
returns does so with an action whose kind is in the fixed allowlist; and for
any action whose kind is not allowlisted, `check` returns the refuse action
built from that kind, with the input untouched, identically for every
`user_text`. -/
theorem check_output_kind_allowlisted (a : Dict) (u u' : String) :
    (∀ r, check a u = Except.ok r → isAllowedTool (kindOf r.1) = true) ∧
    (isAllowedTool (kindOf a) = false →
      check a u = Except.ok (refuseUnknown (kindOf a), a) ∧
      kindOf (refuseUnknown (kindOf a)) = Val.vstr "refuse" ∧
      check a u = check a u') := by
  have hru : isAllowedTool (Val.vstr "refuse") = true := by decide
  constructor
  · intro r h
    rcases check_inv a u r h with ⟨_, hr⟩ | ⟨_, _, hr⟩ | ⟨_, _, _, _, hr⟩ | ⟨hA, _, _, hr⟩
    · rw [hr]; exact hru
    · rw [hr]; exact hru
    · rw [hr]; exact hru
    · rw [hr]
      show isAllowedTool (kindOf (linesClamp a (kindOf a))) = true
      rw [kindOf_linesClamp]
      exact hA
  · intro hNA
    refine ⟨?_, rfl, ?_⟩
    · simp [check, hNA]
    · simp [check, hNA]

/-- Witness for C1 at a concrete non-allowlisted action. -/
theorem check_output_kind_allowlisted_witness :
    check [("action", Val.vstr "launch_missiles")] "hi" =
      Except.ok (refuseUnknown (Val.vstr "launch_missiles"),
        [("action", Val.vstr "launch_missiles")]) ∧
    check [("action", Val.vstr "launch_missiles")] "hi" =
      check [("action", Val.vstr "launch_missiles")] "bye" :=
  ⟨((check_output_kind_allowlisted [("action", Val.vstr "launch_missiles")] "hi" "bye").2
      (by rfl)).1,
   ((check_output_kind_allowlisted [("action", Val.vstr "launch_missiles")] "hi" "bye").2
      (by rfl)).2.2⟩

/-- C2 counterexample: a log-tail action with no `lines` key at all passes
`check` unchanged — no `lines` entry (in particular not 20) is added, because
`action.get("lines", 50)` evaluates the bounds check at the default 50. -/
theorem lines_missing_not_clamped :
    check [("action", Val.vstr "tail_nginx_error")] "" =
      Except.ok ([("action", Val.vstr "tail_nginx_error")],
        [("action", Val.vstr "tail_nginx_error")]) ∧
    Dict.get [("action", Val.vstr "tail_nginx_error")] "lines" = none :=
  ⟨by rfl, by rfl⟩

/-- The `lines` entry of the action after the bounds check, as a function of
the entry before it. -/
theorem linesClamp_get_lines (a : Dict) (t : Val) (ht : isTailTool t = true) :
    Dict.get (linesClamp a t) "lines" =
      (match Dict.get a "lines" with
        | some (Val.vint n) =>
          some (Val.vint (if n < 1 then 20 else if n > 200 then 200 else n))
        | some _ => some (Val.vint 20)
        | none => none) := by
  unfold linesClamp
  simp only [ht, if_true]
  cases hv : Dict.get a "lines" with
  | none =>
    have hD : Dict.getD a "lines" (Val.vint 50) = Val.vint 50 := by
      simp [Dict.getD, hv]
    rw [hD]
    norm_num
    exact hv
  | some v =>
    have hD : Dict.getD a "lines" (Val.vint 50) = v := by
      simp [Dict.getD, hv]
    rw [hD]
    cases v with
    | vint n =>
      by_cases h1 : n < 1
      · simp [h1, Dict.get_set_self]
      · by_cases h2 : n > 200
        · simp [h1, h2, Dict.get_set_self]
        · simp [h1, h2, hv]
    | vstr s => simp [Dict.get_set_self]
    | vnone => simp [Dict.get_set_self]

/-- C2 (amended): for a log-tail action whose user text clears the
destructive screen, a present `lines` value that is a non-integer or an
integer below 1 is clamped to 20, one above 200 is clamped to 200, and an
integer in [1,200] passes through; a missing `lines` key is left absent (the
bounds check reads it with default 50, which passes); the rule never
refuses. -/
theorem lines_clamp_rule (a : Dict) (u : String)
    (htail : isTailTool (kindOf a) = true)
    (hsafe : destructiveHit u = false) :
    ∃ r, check a u = Except.ok (r, r) ∧ kindOf r = kindOf a ∧
      Dict.get r "lines" =
        (match Dict.get a "lines" with
          | some (Val.vint n) =>
            some (Val.vint (if n < 1 then 20 else if n > 200 then 200 else n))
          | some _ => some (Val.vint 20)
          | none => none) := by
  have hcase : kindOf a = Val.vstr "tail_nginx_error" ∨
      kindOf a = Val.vstr "tail_nginx_access" := by
    rcases Bool.or_eq_true_iff.mp htail with h | h
    · exact Or.inl (eq_of_beq h)
    · exact Or.inr (eq_of_beq h)
  refine ⟨linesClamp a (kindOf a), ?_, kindOf_linesClamp a (kindOf a),
    linesClamp_get_lines a (kindOf a) htail⟩
  rcases hcase with ht | ht
  · simp [check, ht, hsafe,
      show isAllowedTool (Val.vstr "tail_nginx_error") = true from by decide,
      show isFileTool (Val.vstr "tail_nginx_error") = false from by decide]
  · simp [check, ht, hsafe,
      show isAllowedTool (Val.vstr "tail_nginx_access") = true from by decide,
      show isFileTool (Val.vstr "tail_nginx_access") = false from by decide]

/-- Witness for C2 (amended) at a present non-integer `lines` value. -/
theorem lines_clamp_rule_witness :
    ∃ r, check [("action", Val.vstr "tail_nginx_access"), ("lines", Val.vstr "abc")] "" =
        Except.ok (r, r) ∧
      kindOf r = kindOf [("action", Val.vstr "tail_nginx_access"), ("lines", Val.vstr "abc")] ∧
      Dict.get r "lines" = some (Val.vint 20) :=
  lines_clamp_rule [("action", Val.vstr "tail_nginx_access"), ("lines", Val.vstr "abc")] ""
    (by rfl) (by rfl)

/-- C3 counterexample: when the classifier call fails (`chat` raises
`RuntimeError`), `route` propagates the exception to its caller instead of
degrading to a clarification action; and when the classifier output is the
scalar JSON `42` — which `json.loads` parses successfully — `route` returns
that number as-is, not a syntactically valid Action. -/
theorem route_failure_modes_cex :
    route (fun _ => Except.error "Cannot connect to Ollama.") (fun _ => none)
      "hello" [] = Except.error "Cannot connect to Ollama." ∧
    route (fun _ => Except.ok "42")
      (fun s => if s = "42" then some (PyJson.num 42) else none) "hello" [] =
      Except.ok (PyJson.num 42) :=
  ⟨by rfl, by rfl⟩

/-- C3 (amended): when the classifier call itself succeeds, `route` never
raises: it returns the fallback action when the fallback matches; otherwise
it returns whatever JSON value the classifier output first parses to — which
need not be an action dict: a scalar or an array is returned verbatim — and
only when no parse succeeds does it degrade to the fixed clarification
action.  A classifier-call exception is not caught inside `route` and
propagates to its caller. -/
theorem route_no_raise_when_chat_succeeds (chatO : List Msg → Except String String)
    (loads : String → Option PyJson) (u : String) (hist : List Msg)
    (hok : ∀ msgs, ∃ raw, chatO msgs = Except.ok raw) :
    (∃ v, route chatO loads u hist = Except.ok v) ∧
    ((_fallback_action u = none ∧ ∀ s, loads s = none) →
      route chatO loads u hist = Except.ok (PyJson.obj clarifyFallback)) ∧
    (∀ raw v, _fallback_action u = none → (∀ msgs, chatO msgs = Except.ok raw) →
      loads (pyStrip raw) = some v →
      route chatO loads u hist = Except.ok v) := by
  refine ⟨?_, ?_, ?_⟩
  · cases hf : _fallback_action u with
    | some fb => exact ⟨PyJson.obj fb, route_of_fallback _ _ _ _ _ hf⟩
    | none =>
      simp only [route, hf]
      obtain ⟨raw, hraw⟩ := hok _
      rw [hraw]
      exact ⟨_, rfl⟩
  · rintro ⟨hf, hl⟩
    simp only [route, hf]
    obtain ⟨raw, hraw⟩ := hok _
    rw [hraw]
    simp only [_extract_json, hl]
    cases braceSearch (pyStrip raw).data <;> simp [hl]
  · intro raw v hf hchat hparse
    simp only [route, hf, hchat]
    simp only [_extract_json, hparse]

/-- Witness for C3 (amended): unparseable classifier output degrades to the
fixed clarification. -/
theorem route_no_raise_when_chat_succeeds_witness :
    route (fun _ => Except.ok "junk") (fun _ => none) "hello" [] =
      Except.ok (PyJson.obj clarifyFallback) :=
  (route_no_raise_when_chat_succeeds (fun _ => Except.ok "junk") (fun _ => none) "hello" []
    (fun _ => ⟨"junk", rfl⟩)).2.1 ⟨by rfl, fun _ => rfl⟩

/-- C4: for any user text containing a destructive keyword as a
case-insensitive substring and any allowlisted non-meta action kind, `check`
rewrites the action to the destructive-intent refusal. -/
theorem destructive_text_refused (a : Dict) (u : String)
    (hkw : ∃ kw ∈ DESTRUCTIVE_KEYWORDS, pyIn kw (pyLower u) = true)
    (hallow : isAllowedTool (kindOf a) = true)
    (hmeta1 : kindOf a ≠ Val.vstr "ask_clarification")
    (hmeta2 : kindOf a ≠ Val.vstr "refuse") :
    check a u = Except.ok (refuseDestructive, a) ∧
    kindOf refuseDestructive = Val.vstr "refuse" := by
  have hhit : destructiveHit u = true := by
    obtain ⟨kw, hmem, hin⟩ := hkw
    exact List.any_eq_true.mpr ⟨kw, hmem, hin⟩
  have hm : isMetaTool (kindOf a) = false := by
    unfold isMetaTool
    rw [beq_eq_false_iff_ne.mpr hmeta1, beq_eq_false_iff_ne.mpr hmeta2]
    rfl
  exact ⟨by simp [check, hallow, hhit, hm], rfl⟩

/-- Witness for C4: a benign disk query with destructive wording. -/
theorem destructive_text_refused_witness :
    check [("action", Val.vstr "get_disk_free")] "please DELETE it" =
      Except.ok (refuseDestructive, [("action", Val.vstr "get_disk_free")]) :=
  (destructive_text_refused [("action", Val.vstr "get_disk_free")] "please DELETE it"
    ⟨"delete", by decide, by rfl⟩ (by decide) (by decide) (by decide)).1

/-- C5: for file-kind actions with a clean user text, a string filename
containing a traversal token, a leading slash, or any forbidden-path
substring is rewritten to the path refusal. -/
theorem forbidden_filename_refused (a : Dict) (u fn : String)
    (htool : kindOf a = Val.vstr "create_text_file" ∨ kindOf a = Val.vstr "read_text_file")
    (hfn : Dict.getD a "filename" (Val.vstr "") = Val.vstr fn)
    (hsafe : destructiveHit u = false)
    (hbad : pyIn ".." fn = true ∨ strStartsWith fn "/" = true ∨
      ∃ p ∈ FORBIDDEN_PATHS, pyIn p fn = true) :
    check a u = Except.ok (refusePath, a) ∧
    kindOf refusePath = Val.vstr "refuse" := by
  have hB : badFilename fn = true := by
    unfold badFilename
    rcases hbad with h | h | ⟨p, hp, h⟩
    · exact List.any_eq_true.mpr ⟨"~/.ssh", by decide, by simp [h]⟩
    · exact List.any_eq_true.mpr ⟨"~/.ssh", by decide, by simp [h]⟩
    · exact List.any_eq_true.mpr ⟨p, hp, by simp [h]⟩
  refine ⟨?_, rfl⟩
  rcases htool with ht | ht
  · exact check_file_refusePath a u fn (by rw [ht]; decide) (by rw [ht]; decide)
      (by rw [ht]; decide) hfn hsafe hB
  · exact check_file_refusePath a u fn (by rw [ht]; decide) (by rw [ht]; decide)
      (by rw [ht]; decide) hfn hsafe hB

/-- Witness for C5: reading `.env` is refused. -/
theorem forbidden_filename_refused_witness :
    check [("action", Val.vstr "read_text_file"), ("filename", Val.vstr ".env")] "read it" =
      Except.ok (refusePath,
        [("action", Val.vstr "read_text_file"), ("filename", Val.vstr ".env")]) :=
  (forbidden_filename_refused
    [("action", Val.vstr "read_text_file"), ("filename", Val.vstr ".env")] "read it" ".env"
    (Or.inr (by rfl)) (by rfl) (by rfl)
    (Or.inr (Or.inr ⟨".env", by decide, by rfl⟩))).1

/-- C6 counterexample: "nginx error cpu" contains "cpu" as a token, yet the
fallback classifier returns the log-tail action, because the nginx rules are
checked first. -/
theorem cpu_token_fallback_cex :
    (pyTokens "nginx error cpu").contains "cpu" = true ∧
    _fallback_action "nginx error cpu" =
      some [("action", Val.vstr "tail_nginx_error"), ("lines", Val.vint 50)] ∧
    _fallback_action "nginx error cpu" ≠
      some [("action", Val.vstr "get_cpu_usage")] :=
  ⟨by rfl, by rfl, by decide⟩

/-- C6 (amended): provided no earlier rule fires, the fallback's resource
rules hold for every user text and are returned by `route` regardless of the
history and of the classifier: cpu/processor yields `get_cpu_usage`; if those
are absent, ram/memory yields `get_ram_usage`; then disk/storage/space
yields `get_disk_free`; then uptime/running yields `get_uptime`. -/
theorem fallback_resource_rules (u : String) (hist : List Msg)
    (chatO : List Msg → Except String String) (loads : String → Option PyJson)
    (hne : (pyIn "nginx" (pyLower u) && pyIn "error" (pyLower u)) = false)
    (hna : (pyIn "nginx" (pyLower u) && pyIn "access" (pyLower u)) = false) :
    (((pyTokens u).contains "cpu" || (pyTokens u).contains "processor") = true →
      _fallback_action u = some [("action", Val.vstr "get_cpu_usage")] ∧
      route chatO loads u hist = Except.ok (PyJson.obj [("action", Val.vstr "get_cpu_usage")])) ∧
    (((pyTokens u).contains "cpu" || (pyTokens u).contains "processor") = false →
      ((pyTokens u).contains "ram" || (pyTokens u).contains "memory") = true →
      _fallback_action u = some [("action", Val.vstr "get_ram_usage")] ∧
      route chatO loads u hist = Except.ok (PyJson.obj [("action", Val.vstr "get_ram_usage")])) ∧
    (((pyTokens u).contains "cpu" || (pyTokens u).contains "processor") = false →
      ((pyTokens u).contains "ram" || (pyTokens u).contains "memory") = false →
      ((pyTokens u).contains "disk" || (pyTokens u).contains "storage" ||
        (pyTokens u).contains "space") = true →
      _fallback_action u = some [("action", Val.vstr "get_disk_free")] ∧
      route chatO loads u hist = Except.ok (PyJson.obj [("action", Val.vstr "get_disk_free")])) ∧
    (((pyTokens u).contains "cpu" || (pyTokens u).contains "processor") = false →
      ((pyTokens u).contains "ram" || (pyTokens u).contains "memory") = false →
      ((pyTokens u).contains "disk" || (pyTokens u).contains "storage" ||
        (pyTokens u).contains "space") = false →
      ((pyTokens u).contains "uptime" || (pyTokens u).contains "running") = true →
      _fallback_action u = some [("action", Val.vstr "get_uptime")] ∧
      route chatO loads u hist = Except.ok (PyJson.obj [("action", Val.vstr "get_uptime")])) := by
  refine ⟨fun h1 => ?_, fun h1 h2 => ?_, fun h1 h2 h3 => ?_, fun h1 h2 h3 h4 => ?_⟩
  · have hf : _fallback_action u = some [("action", Val.vstr "get_cpu_usage")] := by
      simp only [_fallback_action]
      rw [if_neg (by simp [hne]), if_neg (by simp [hna]), if_pos h1]
    exact ⟨hf, route_of_fallback _ _ _ _ _ hf⟩
  · have hf : _fallback_action u = some [("action", Val.vstr "get_ram_usage")] := by
      simp only [_fallback_action]
      rw [if_neg (by simp [hne]), if_neg (by simp [hna]), if_neg (by simp_all), if_pos h2]
    exact ⟨hf, route_of_fallback _ _ _ _ _ hf⟩
  · have hf : _fallback_action u = some [("action", Val.vstr "get_disk_free")] := by
      simp only [_fallback_action]
      rw [if_neg (by simp [hne]), if_neg (by simp [hna]), if_neg (by simp_all),
        if_neg (by simp_all), if_pos h3]
    exact ⟨hf, route_of_fallback _ _ _ _ _ hf⟩
  · have hf : _fallback_action u = some [("action", Val.vstr "get_uptime")] := by
      simp only [_fallback_action]
      rw [if_neg (by simp [hne]), if_neg (by simp [hna]), if_neg (by simp_all),
        if_neg (by simp_all), if_neg (by simp_all), if_pos h4]
    exact ⟨hf, route_of_fallback _ _ _ _ _ hf⟩

/-- Witness for C6 (amended) at the plain text "cpu". -/
theorem fallback_resource_rules_witness :
    _fallback_action "cpu" = some [("action", Val.vstr "get_cpu_usage")] ∧
    route (fun _ => Except.ok "x") (fun _ => none) "cpu" [] =
      Except.ok (PyJson.obj [("action", Val.vstr "get_cpu_usage")]) :=
  (fallback_resource_rules "cpu" [] (fun _ => Except.ok "x") (fun _ => none)
    (by rfl) (by rfl)).1 (by rfl)

/-- C7: the Policy Validator is idempotent on its returned action: a second
`check` of a successful first result, with the same user text, returns it
unchanged (and performs no further mutation). -/
theorem check_idempotent (a : Dict) (u : String) (r : Dict × Dict)
    (h : check a u = Except.ok r) :
    check r.1 u = Except.ok (r.1, r.1) := by
  rcases check_inv a u r h with ⟨_, hr⟩ | ⟨_, _, hr⟩ | ⟨_, _, _, _, hr⟩ | ⟨hA, hD, hFor, hr⟩
  · rw [hr]; exact check_refuse_kind _ _ rfl
  · rw [hr]; exact check_refuse_kind _ _ rfl
  · rw [hr]; exact check_refuse_kind _ _ rfl
  · rw [hr]
    show check (linesClamp a (kindOf a)) u = Except.ok (linesClamp a (kindOf a), linesClamp a (kindOf a))
    have hkind : kindOf (linesClamp a (kindOf a)) = kindOf a := kindOf_linesClamp a (kindOf a)
    cases hF : isFileTool (kindOf a) with
    | false =>
      simp [check, hkind, hA, hD, hF, linesClamp_idem]
    | true =>
      have hnt : isTailTool (kindOf a) = false := isFileTool_not_tail _ hF
      have hlc : linesClamp a (kindOf a) = a := linesClamp_not_tail _ _ hnt
      rw [hlc]
      rcases hFor with hFf | ⟨fn, hfn, hB⟩
      · rw [hFf] at hF; exact absurd hF (by simp)
      · simp [check, hA, hD, hF, hfn, hB, linesClamp_not_tail _ _ hnt]

/-- Witness for C7 on a concrete pass-through action. -/
theorem check_idempotent_witness :
    check [("action", Val.vstr "get_uptime")] "" =
      Except.ok ([("action", Val.vstr "get_uptime")], [("action", Val.vstr "get_uptime")]) :=
  check_idempotent [("action", Val.vstr "get_uptime")] ""
    ([("action", Val.vstr "get_uptime")], [("action", Val.vstr "get_uptime")]) (by rfl)

/-- C8 counterexample: on an out-of-range `lines` value the validator
mutates the caller's action in place — after the call the input object
carries `lines = 20`, so it is not left unchanged. -/
theorem check_mutates_input_cex :
    check [("action", Val.vstr "tail_nginx_error"), ("lines", Val.vint 0)] "" =
      Except.ok ([("action", Val.vstr "tail_nginx_error"), ("lines", Val.vint 20)],
        [("action", Val.vstr "tail_nginx_error"), ("lines", Val.vint 20)]) ∧
    ([("action", Val.vstr "tail_nginx_error"), ("lines", Val.vint 20)] : Dict) ≠
      [("action", Val.vstr "tail_nginx_error"), ("lines", Val.vint 0)] :=
  ⟨by rfl, by decide⟩

/-- C8 (amended): the validator's only side effect on its input is the
in-place `lines` clamp — after a successful call the input object is either
unchanged or equal to the input with `lines` set to 20 or to 200, and
whenever it was mutated the returned action is that same object. -/
theorem check_mutation_only_lines (a : Dict) (u : String) (r : Dict × Dict)
    (h : check a u = Except.ok r) :
    (r.2 = a ∨ r.2 = Dict.set a "lines" (Val.vint 20) ∨
      r.2 = Dict.set a "lines" (Val.vint 200)) ∧
    (r.2 ≠ a → r.1 = r.2) := by
  rcases check_inv a u r h with ⟨_, hr⟩ | ⟨_, _, hr⟩ | ⟨_, _, _, _, hr⟩ | ⟨_, _, _, hr⟩
  · rw [hr]; exact ⟨Or.inl rfl, fun hne => absurd rfl hne⟩
  · rw [hr]; exact ⟨Or.inl rfl, fun hne => absurd rfl hne⟩
  · rw [hr]; exact ⟨Or.inl rfl, fun hne => absurd rfl hne⟩
  · rw [hr]
    exact ⟨linesClamp_shape a (kindOf a), fun _ => rfl⟩

/-- Witness for C8 (amended) at the mutating input. -/
theorem check_mutation_only_lines_witness :
    (([("action", Val.vstr "tail_nginx_error"), ("lines", Val.vint 20)] : Dict) =
        [("action", Val.vstr "tail_nginx_error"), ("lines", Val.vint 0)] ∨
      ([("action", Val.vstr "tail_nginx_error"), ("lines", Val.vint 20)] : Dict) =
        Dict.set [("action", Val.vstr "tail_nginx_error"), ("lines", Val.vint 0)]
          "lines" (Val.vint 20) ∨
      ([("action", Val.vstr "tail_nginx_error"), ("lines", Val.vint 20)] : Dict) =
        Dict.set [("action", Val.vstr "tail_nginx_error"), ("lines", Val.vint 0)]
          "lines" (Val.vint 200)) ∧
    (([("action", Val.vstr "tail_nginx_error"), ("lines", Val.vint 20)] : Dict) ≠
        [("action", Val.vstr "tail_nginx_error"), ("lines", Val.vint 0)] →
      ([("action", Val.vstr "tail_nginx_error"), ("lines", Val.vint 20)] : Dict) =
        [("action", Val.vstr "tail_nginx_error"), ("lines", Val.vint 20)]) :=
  check_mutation_only_lines [("action", Val.vstr "tail_nginx_error"), ("lines", Val.vint 0)] ""
    ([("action", Val.vstr "tail_nginx_error"), ("lines", Val.vint 20)],
     [("action", Val.vstr "tail_nginx_error"), ("lines", Val.vint 20)]) (by rfl)

/-- C9: the executor's own second clamp on the tail line count — the remote
command always uses max(20, min(lines, 200)), so a policy-approved value in
[1,19] is executed as 20. -/
theorem executor_tail_second_clamp (lines : Int) (h1 : 1 ≤ lines) (h2 : lines ≤ 19) :
    tail_nginx_error_cmd lines = "tail -n 20 /var/log/nginx/error.log 2>&1" ∧
    tail_nginx_access_cmd lines = "tail -n 20 /var/log/nginx/access.log 2>&1" ∧
    (∀ l : Int, tail_nginx_error_cmd l =
        "tail -n " ++ toString (max 20 (min l 200)) ++ " /var/log/nginx/error.log 2>&1" ∧
      tail_nginx_access_cmd l =
        "tail -n " ++ toString (max 20 (min l 200)) ++ " /var/log/nginx/access.log 2>&1") := by
  have hm : max 20 (min lines 200) = 20 := by omega
  refine ⟨?_, ?_, fun l => ⟨rfl, rfl⟩⟩
  · simp only [tail_nginx_error_cmd, hm]
    rfl
  · simp only [tail_nginx_access_cmd, hm]
    rfl

/-- Witness for C9 at lines = 5. -/
theorem executor_tail_second_clamp_witness :
    tail_nginx_error_cmd 5 = "tail -n 20 /var/log/nginx/error.log 2>&1" ∧
    tail_nginx_access_cmd 5 = "tail -n 20 /var/log/nginx/access.log 2>&1" :=
  ⟨(executor_tail_second_clamp 5 (by decide) (by decide)).1,
   (executor_tail_second_clamp 5 (by decide) (by decide)).2.1⟩

/-- C10: for every filename, `_safe_workdir_path` either raises
`ValueError` (modelled as an error, exactly when the sanitized name is
empty) or returns the workspace directory joined with a non-empty basename
containing no slash and no `..`; `create_text_file` and `read_text_file`
turn the failure into an "Error:"-prefixed string and otherwise access only
that joined path. -/
theorem safe_workdir_path_spec (filename : String) :
    (_safe_workdir_path filename = Except.error "Invalid filename." ∧
      ∀ (w : String → String → String) (r : String → String) (c : String),
        create_text_file w filename c = "Error: Invalid filename." ∧
        read_text_file r filename = "Error: Invalid filename.") ∨
    (∃ name : List Char, name ≠ [] ∧ hasChar '/' name = false ∧
      hasSub ['.', '.'] name = false ∧
      _safe_workdir_path filename =
        Except.ok (String.mk (SSH_WORKDIR.data ++ '/' :: name)) ∧
      ∀ (w : String → String → String) (r : String → String) (c : String),
        create_text_file w filename c =
          w (String.mk (SSH_WORKDIR.data ++ '/' :: name)) c ∧
        read_text_file r filename =
          r (String.mk (SSH_WORKDIR.data ++ '/' :: name))) := by
  cases he : (posixBasename (removeDotDot filename.data)).isEmpty with
  | true =>
    left
    have h1 : _safe_workdir_path filename = Except.error "Invalid filename." := by
      simp [_safe_workdir_path, he]
    refine ⟨h1, fun w r c => ⟨?_, ?_⟩⟩
    · simp only [create_text_file, h1]
      rfl
    · simp only [read_text_file, h1]
      rfl
  | false =>
    right
    have h0 : posixBasename (removeDotDot filename.data) ≠ [] := by
      intro hnil
      rw [hnil] at he
      exact absurd he (by decide)
    have hslash : hasChar '/' (posixBasename (removeDotDot filename.data)) = false :=
      posixBasename_no_slash _
    have hdd : hasSub ['.', '.'] (posixBasename (removeDotDot filename.data)) = false :=
      posixBasename_preserves_no_sub _ _ (removeDotDot_no_dotdot filename.data)
    have hjoin : posixJoin SSH_WORKDIR.data (posixBasename (removeDotDot filename.data)) =
        SSH_WORKDIR.data ++ '/' :: posixBasename (removeDotDot filename.data) :=
      posixJoin_no_slash_name _ _ h0 hslash (by decide) (by decide)
    have hok : _safe_workdir_path filename =
        Except.ok (String.mk
          (SSH_WORKDIR.data ++ '/' :: posixBasename (removeDotDot filename.data))) := by
      simp only [_safe_workdir_path, he, Bool.false_eq_true, if_false, hjoin]
    refine ⟨posixBasename (removeDotDot filename.data), h0, hslash, hdd, hok,
      fun w r c => ⟨?_, ?_⟩⟩
    · simp only [create_text_file, hok]
    · simp only [read_text_file, hok]
